import Mathlib

/-!
Verification of the technical-analysis and decision engine of the
stock-recommendation repository.  The Python sources under `src/` are
shallowly embedded: dictionaries become structures with `Option` fields,
floating-point arithmetic becomes exact rational arithmetic (`ℚ`), the
irrational square roots in the volume module become real (`ℝ`) values,
and the catch-all `try/except` blocks that can never fire on the embedded
total functions are dropped.
-/

set_option autoImplicit false

/-! ### String containment (Python's `'pat' in s`) -/

/-- Boolean list-prefix test, used to embed Python's substring operator. -/
def startsWithL : List Char → List Char → Bool
  | [], _ => true
  | _ :: _, [] => false
  | c :: cs, d :: ds => c == d && startsWithL cs ds

/-- Boolean substring test on character lists. -/
def hasSubL (pat : List Char) : List Char → Bool
  | [] => startsWithL pat []
  | d :: ds => startsWithL pat (d :: ds) || hasSubL pat ds

/-- `strHas s pat` embeds Python's `pat in s` for strings. -/
def strHas (s pat : String) : Bool := hasSubL pat.data s.data

/-! ### Rounding (Python's `round(x, 2)`) -/

/-- Round a rational to the nearest integer, ties to the even integer,
which is the rounding used by Python's `round`. -/
def round_half_even (x : ℚ) : ℤ :=
  let f : ℤ := ⌊x⌋
  let r : ℚ := x - f
  if r < 1/2 then f
  else if 1/2 < r then f + 1
  else if f % 2 = 0 then f else f + 1

/-- `round2` embeds Python's `round(x, 2)`. -/
def round2 (x : ℚ) : ℚ := (round_half_even (x * 100) : ℚ) / 100

/-! ### Data model

`StockData` embeds the snapshot dictionary handed to the analysis
pipeline: a missing key is `none`.  The nested `macd` dictionary keeps
its two optional entries.  -/

structure MacdData where
  macd : Option ℚ
  signal : Option ℚ

structure StockData where
  price : Option ℚ
  change : Option ℚ
  volume : Option ℚ
  rsi : Option ℚ
  w52high : Option ℚ
  w52low : Option ℚ
  macd : Option MacdData

/-- Result shape of `MarketData._analyze_technical_indicators`. -/
structure TechnicalAnalysis where
  trend : String
  strength : String
  signals : List String

/-- Result shape of `MarketData._analyze_price_action`. -/
structure PriceAnalysis where
  trend : String
  volatility : String
  support : Option ℚ
  resistance : Option ℚ

/-- Result shape of `TradeAnalyzer._calculate_risk_metrics`.  Money
fields are rationals; the win rate is a natural number (Python computes
it with integer arithmetic only). -/
structure RiskMetrics where
  entry_price : ℚ
  stop_loss : ℚ
  take_profit : ℚ
  win_rate : ℕ
  risk_percentage : ℚ

/-! ### `MarketData` (src/src/data/market_data.py) -/

/-- `MarketData._analyze_technical_indicators`: starts from
`{trend: neutral, strength: weak, signals: []}` and appends RSI and MACD
signals.  Python's `if macd:` is false exactly when the `macd` key is
absent or maps to an empty dictionary, both embedded as `none`. -/
def analyze_technical_indicators (data : StockData) : TechnicalAnalysis :=
  let rsi_signals : List String :=
    match data.rsi with
    | some r => if r > 70 then ["overbought"] else if r < 30 then ["oversold"] else []
    | none => []
  let macd_signals : List String :=
    match data.macd with
    | some md =>
      match md.macd, md.signal with
      | some macd_line, some signal_line =>
        if macd_line > signal_line then ["bullish_macd"] else ["bearish_macd"]
      | _, _ => []
    | none => []
  { trend := "neutral", strength := "weak", signals := rsi_signals ++ macd_signals }

/-- `MarketData._determine_trend`. -/
def determine_trend (data : StockData) : String :=
  let change := data.change.getD 0
  if change > 1 then "uptrend"
  else if change < -1 then "downtrend"
  else "sideways"

/-- `MarketData._calculate_volatility`.  Python's `if high and low and
high > low` is the truthiness test `high ≠ 0 ∧ low ≠ 0 ∧ high > low`. -/
def calculate_volatility (data : StockData) : String :=
  let high := data.w52high.getD 0
  let low := data.w52low.getD 0
  if high ≠ 0 ∧ low ≠ 0 ∧ high > low then
    let volatility := (high - low) / low * 100
    if volatility > 50 then "high"
    else if volatility > 25 then "medium"
    else "low"
  else "low"

/-- `MarketData._analyze_price_action` (with
`_find_support_resistance` inlined into the last two fields). -/
def analyze_price_action (data : StockData) : PriceAnalysis :=
  { trend := determine_trend data
    volatility := calculate_volatility data
    support := data.w52low
    resistance := data.w52high }

/-- `MarketData._generate_signals`. -/
def generate_signals (ta : TechnicalAnalysis) (pa : PriceAnalysis) : List String :=
  ta.signals
    ++ (if pa.trend = "uptrend" then ["trend_following_buy"]
        else if pa.trend = "downtrend" then ["trend_following_sell"]
        else [])
    ++ (if pa.volatility = "high" then ["high_volatility"] else [])

/-! ### `TradeAnalyzer` (src/src/core/analyzer.py) -/

/-- One step of the win-rate loop in
`TradeAnalyzer._calculate_risk_metrics`: `+5` for each of the four
momentum/convergence signals, unchanged otherwise. -/
def winStep (acc : ℕ) (s : String) : ℕ :=
  if s = "oversold" ∨ s = "bullish_macd" then acc + 5
  else if s = "overbought" ∨ s = "bearish_macd" then acc + 5
  else acc

/-- The four signals that increment the win rate. -/
def is_win_signal (s : String) : Bool :=
  s = "oversold" || s = "bullish_macd" || s = "overbought" || s = "bearish_macd"

/-- `TradeAnalyzer._calculate_risk_metrics` (success path; the embedded
function is total, so the `except` branch cannot fire). -/
def calculate_risk_metrics (data : StockData) (technical : TechnicalAnalysis)
    (price : PriceAnalysis) : RiskMetrics :=
  let current_price := data.price.getD 0
  let entry_price :=
    if price.trend = "uptrend" then current_price * 0.99
    else if price.trend = "downtrend" then current_price * 1.01
    else current_price
  let pcts : ℚ × ℚ :=
    if price.volatility = "high" then (0.05, 0.15)
    else if price.volatility = "medium" then (0.03, 0.09)
    else (0.02, 0.06)
  let stop_loss_pct := pcts.1
  let take_profit_pct := pcts.2
  let stop_loss := entry_price * (1 - stop_loss_pct)
  let take_profit := entry_price * (1 + take_profit_pct)
  let base_win_rate := List.foldl winStep 50 technical.signals
  let adjusted_win_rate :=
    if technical.strength = "strong" then base_win_rate + 10
    else if technical.strength = "moderate" then base_win_rate + 5
    else base_win_rate
  let win_rate := min adjusted_win_rate 90
  { entry_price := round2 entry_price
    stop_loss := round2 stop_loss
    take_profit := round2 take_profit
    win_rate := win_rate
    risk_percentage := round2 (stop_loss_pct * 100) }

/-- Number of bullish tags: Python's
`len([s for s in signals if 'buy' in s or 'bullish' in s])`. -/
def count_bullish_signals (signals : List String) : ℕ :=
  (signals.filter (fun s => strHas s "buy" || strHas s "bullish")).length

/-- Number of bearish tags: Python's
`len([s for s in signals if 'sell' in s or 'bearish' in s])`. -/
def count_bearish_signals (signals : List String) : ℕ :=
  (signals.filter (fun s => strHas s "sell" || strHas s "bearish")).length

/-- Bullish vote total after the synthetic trend vote. -/
def bullish_votes (price : PriceAnalysis) (signals : List String) : ℕ :=
  count_bullish_signals signals + (if price.trend = "uptrend" then 1 else 0)

/-- Bearish vote total after the synthetic trend vote. -/
def bearish_votes (price : PriceAnalysis) (signals : List String) : ℕ :=
  count_bearish_signals signals + (if price.trend = "downtrend" then 1 else 0)

/-- `TradeAnalyzer._generate_recommendation` (success path). -/
def generate_recommendation (technical : TechnicalAnalysis) (price : PriceAnalysis)
    (signals : List String) : String :=
  let b := bullish_votes price signals
  let r := bearish_votes price signals
  if b > r then
    (if technical.strength = "strong" then "Strong Buy" else "Buy")
  else if r > b then
    (if technical.strength = "strong" then "Strong Sell" else "Sell")
  else "Hold"

/-! ### `RSIIndicator` (src/src/indicators/rsi.py)

A `none` argument embeds the non-sequence inputs that fail Python's
`isinstance` test. -/

/-- `np.diff`: successive first differences. -/
def price_diffs : List ℚ → List ℚ
  | [] => []
  | [_] => []
  | a :: b :: rest => (b - a) :: price_diffs (b :: rest)

/-- `RSIIndicator._calculate_average`: simple mean of the first
`period` values followed by the Wilder smoothing recurrence over the
rest; `0` when fewer than `period` values are given. -/
def calculate_average (period : ℕ) (values : List ℚ) : ℚ :=
  if values.length < period then 0
  else
    List.foldl (fun avg v => (avg * ((period : ℚ) - 1) + v) / (period : ℚ))
      ((values.take period).sum / (period : ℚ))
      (values.drop period)

/-- `RSIIndicator.calculate`. -/
def rsi_calculate (period : ℕ) : Option (List ℚ) → Option ℚ
  | none => none
  | some l =>
    if l.isEmpty then none
    else if l.length < period then none
    else
      let changes := price_diffs l
      if changes.length < period then none
      else
        let gains := changes.map (fun c => if c > 0 then c else 0)
        let losses := changes.map (fun c => if c < 0 then -c else 0)
        let avg_gain := calculate_average period gains
        let avg_loss := calculate_average period losses
        if avg_loss = 0 then some 100
        else some (100 - 100 / (1 + avg_gain / avg_loss))

/-! ### `MACDIndicator` (src/src/indicators/macd.py) -/

/-- The EMA recurrence `ema[i] = data[i]*m + ema[i-1]*(1-m)`, unfolded
from a previous value. -/
def ema_from (m : ℚ) : ℚ → List ℚ → List ℚ
  | _, [] => []
  | prev, x :: xs =>
    let e := x * m + prev * (1 - m)
    e :: ema_from m e xs

/-- `MACDIndicator._calculate_ema_array`: `none` when fewer than
`period` samples; otherwise the first `period` entries hold the seed
(the simple mean of the first `period` samples) and the rest follow the
EMA recurrence with multiplier `2/(period+1)`. -/
def calculate_ema_array (period : ℕ) (data : List ℚ) : Option (List ℚ) :=
  if data.length < period then none
  else
    let m : ℚ := 2 / ((period : ℚ) + 1)
    let seed := (data.take period).sum / (period : ℚ)
    some (List.replicate period seed ++ ema_from m seed (data.drop period))

/-- `MACDIndicator.calculate`: returns the macd line value, the signal
line value, and the histogram, or the all-`none` triple. -/
def macd_calculate (fast slow signalp : ℕ) :
    Option (List ℚ) → Option ℚ × Option ℚ × Option ℚ
  | none => (none, none, none)
  | some l =>
    if l.length < slow + signalp then (none, none, none)
    else
      match calculate_ema_array fast l, calculate_ema_array slow l with
      | some fast_ema, some slow_ema =>
        let macd_line := List.zipWith (fun a b => a - b) fast_ema slow_ema
        match calculate_ema_array signalp macd_line with
        | some signal_line =>
          let histogram := macd_line.getLastD 0 - signal_line.getLastD 0
          (some (macd_line.getLastD 0), some (signal_line.getLastD 0), some histogram)
        | none => (none, none, none)
      | _, _ => (none, none, none)

/-! ### `VolumeAnalyzer` (src/src/indicators/volume.py)

Pearson correlation and the z-score divide by square roots, so those
two helpers live in `ℝ`; everything else stays rational. -/

structure VolumeResult where
  average_volume : ℚ
  volume_trend : String
  price_volume_correlation : ℝ
  unusual_volume : Bool
  volume_signal : String

/-- `VolumeAnalyzer._get_empty_result`. -/
def get_empty_result : VolumeResult :=
  { average_volume := 0
    volume_trend := "neutral"
    price_volume_correlation := 0
    unusual_volume := false
    volume_signal := "normal_volume" }

/-- Mean of a rational list (`np.mean`). -/
def list_mean (l : List ℚ) : ℚ := l.sum / (l.length : ℚ)

/-- `VolumeAnalyzer._calculate_volume_sma` with the default
`period = 20`: `0` when fewer than 20 volumes, else the mean of the last
20. -/
def calculate_volume_sma (volumes : List ℚ) : ℚ :=
  if volumes.length < 20 then 0
  else list_mean (volumes.drop (volumes.length - 20))

/-- `VolumeAnalyzer._calculate_price_volume_correlation` with the
default `period = 20`: Pearson correlation of the difference series of
the last 20 prices and volumes.  `np.corrcoef` returns `NaN` when either
variance is zero and the source maps `NaN` to `0`, embedded here as the
explicit zero-variance test. -/
noncomputable def calculate_price_volume_correlation (prices volumes : List ℚ) : ℝ :=
  if prices.length < 20 ∨ volumes.length < 20 then 0
  else
    let price_changes := price_diffs (prices.drop (prices.length - 20))
    let volume_changes := price_diffs (volumes.drop (volumes.length - 20))
    if price_changes.length ≠ volume_changes.length then 0
    else
      let mp := list_mean price_changes
      let mv := list_mean volume_changes
      let sp : ℚ := (price_changes.map (fun x => (x - mp) ^ 2)).sum
      let sv : ℚ := (volume_changes.map (fun x => (x - mv) ^ 2)).sum
      let cov : ℚ := (List.zipWith (fun a b => (a - mp) * (b - mv)) price_changes volume_changes).sum
      if sp = 0 ∨ sv = 0 then 0
      else (cov : ℝ) / Real.sqrt ((sp : ℝ) * (sv : ℝ))

/-- Least-squares slope of `ys` against `0, 1, ...`, the degree-1
coefficient `np.polyfit(range(n), ys, 1)[0]`. -/
def lsq_slope (ys : List ℚ) : ℚ :=
  let n : ℚ := (ys.length : ℚ)
  let xs : List ℚ := (List.range ys.length).map (fun i => (i : ℚ))
  let sx := xs.sum
  let sy := ys.sum
  let sxy := (List.zipWith (fun a b => a * b) xs ys).sum
  let sxx := (xs.map (fun x => x ^ 2)).sum
  (n * sxy - sx * sy) / (n * sxx - sx ^ 2)

/-- `VolumeAnalyzer._analyze_volume_trend` with the default
`period = 10`. -/
def analyze_volume_trend (volumes : List ℚ) : String :=
  if volumes.length < 10 then "neutral"
  else
    let volume_trend := lsq_slope (volumes.drop (volumes.length - 10))
    if volume_trend > 0 then "increasing"
    else if volume_trend < 0 then "decreasing"
    else "neutral"

/-- `VolumeAnalyzer._detect_unusual_volume` with defaults
`period = 20`, `threshold = 2.0`: z-score of the latest volume against
the trailing-20 mean and population standard deviation. -/
noncomputable def detect_unusual_volume (volumes : List ℚ) : Bool :=
  if volumes.length < 20 then false
  else
    let recent := volumes.drop (volumes.length - 20)
    let mean_volume := list_mean recent
    let variance := list_mean (recent.map (fun v => (v - mean_volume) ^ 2))
    let std_volume : ℝ := Real.sqrt (variance : ℝ)
    if std_volume = 0 then false
    else
      let z_score := ((volumes.getLastD 0 - mean_volume : ℚ) : ℝ) / std_volume
      decide (|z_score| > 2)

/-- `VolumeAnalyzer._generate_volume_signal`. -/
def generate_volume_signal (current_volume avg_volume : ℚ)
    (volume_trend : String) (unusual_volume : Bool) : String :=
  if current_volume > avg_volume * 2 ∧ volume_trend = "increasing" then "strong_volume"
  else if current_volume < avg_volume * 0.5 ∧ volume_trend = "decreasing" then "weak_volume"
  else if unusual_volume then "unusual_volume"
  else "normal_volume"

/-- `VolumeAnalyzer.analyze_volume`: a `none` argument embeds the
inputs that fail Python's `isinstance` test (including `None`). -/
noncomputable def analyze_volume (prices volumes : Option (List ℚ)) : VolumeResult :=
  match prices, volumes with
  | some p, some v =>
    if p.length ≠ v.length then get_empty_result
    else if p.length < 2 then get_empty_result
    else
      let volume_sma := calculate_volume_sma v
      let volume_trend := analyze_volume_trend v
      let unusual_volume := detect_unusual_volume v
      { average_volume := volume_sma
        volume_trend := volume_trend
        price_volume_correlation := calculate_price_volume_correlation p v
        unusual_volume := unusual_volume
        volume_signal :=
          generate_volume_signal (v.getLastD 0) volume_sma volume_trend unusual_volume }
  | _, _ => get_empty_result

/-! ## Theorems -/

/-! ### Helper lemmas for the analyzer -/

/-- The snapshot of the round-trip scenario. -/
def c1_data : StockData :=
  { price := some 150
    change := some 2.5
    volume := none
    rsi := some 65
    w52high := some 160
    w52low := some 140
    macd := some { macd := some 1.5, signal := some 1.0 } }

theorem c1_pa : analyze_price_action c1_data =
    { trend := "uptrend", volatility := "low", support := some 140, resistance := some 160 } := by
  norm_num [analyze_price_action, determine_trend, calculate_volatility, c1_data]

theorem c1_ta : analyze_technical_indicators c1_data =
    { trend := "neutral", strength := "weak", signals := ["bullish_macd"] } := by
  norm_num [analyze_technical_indicators, c1_data]

theorem c1_rm :
    calculate_risk_metrics c1_data (analyze_technical_indicators c1_data)
      (analyze_price_action c1_data) =
    { entry_price := 148.5, stop_loss := 145.53, take_profit := 157.41,
      win_rate := 55, risk_percentage := 2 } := by
  rw [c1_pa, c1_ta]
  simp [calculate_risk_metrics, c1_data, winStep, round2, round_half_even]
  norm_num [Int.fract]

/-- The win-rate field of the risk metrics, unfolded. -/
theorem win_rate_eq (data : StockData) (technical : TechnicalAnalysis) (price : PriceAnalysis) :
    (calculate_risk_metrics data technical price).win_rate =
      min (if technical.strength = "strong" then List.foldl winStep 50 technical.signals + 10
           else if technical.strength = "moderate" then List.foldl winStep 50 technical.signals + 5
           else List.foldl winStep 50 technical.signals) 90 := rfl

/-- The risk-percentage field of the risk metrics, unfolded. -/
theorem risk_percentage_eq (data : StockData) (technical : TechnicalAnalysis)
    (price : PriceAnalysis) :
    (calculate_risk_metrics data technical price).risk_percentage =
      round2 ((if price.volatility = "high" then ((0.05 : ℚ), (0.15 : ℚ))
               else if price.volatility = "medium" then (0.03, 0.09)
               else (0.02, 0.06)).1 * 100) := rfl

/-- One win-rate step adds 5 exactly on the four counted signals. -/
theorem winStep_eq (n : ℕ) (s : String) :
    winStep n s = n + (if is_win_signal s then 5 else 0) := by
  simp only [winStep, is_win_signal, Bool.or_eq_true, decide_eq_true_eq]
  split_ifs <;> tauto

/-- The win-rate loop counts the four momentum/convergence signals. -/
theorem foldl_winStep_eq (l : List String) : ∀ n : ℕ,
    List.foldl winStep n l = n + 5 * l.countP is_win_signal := by
  induction l with
  | nil => intro n; simp
  | cons s t ih =>
    intro n
    rw [List.foldl_cons, ih, winStep_eq, List.countP_cons]
    split_ifs <;> omega

/-! ### C1 -/

/-- C1: for the snapshot `{price:150, change:2.5, 52w_high:160, 52w_low:140,
rsi:65, macd:{macd:1.5, signal:1.0}}` the pipeline classifies trend
`uptrend` and volatility `low`, and the risk metrics are entry 148.5,
stop-loss 145.53, take-profit 157.41, risk-percentage 2.0 and a win rate
of at least 50. -/
theorem c1_round_trip :
    (analyze_price_action c1_data).trend = "uptrend" ∧
    (analyze_price_action c1_data).volatility = "low" ∧
    (calculate_risk_metrics c1_data (analyze_technical_indicators c1_data)
        (analyze_price_action c1_data)).entry_price = 148.5 ∧
    (calculate_risk_metrics c1_data (analyze_technical_indicators c1_data)
        (analyze_price_action c1_data)).stop_loss = 145.53 ∧
    (calculate_risk_metrics c1_data (analyze_technical_indicators c1_data)
        (analyze_price_action c1_data)).take_profit = 157.41 ∧
    (calculate_risk_metrics c1_data (analyze_technical_indicators c1_data)
        (analyze_price_action c1_data)).risk_percentage = 2 ∧
    50 ≤ (calculate_risk_metrics c1_data (analyze_technical_indicators c1_data)
        (analyze_price_action c1_data)).win_rate :=
  ⟨by rw [c1_pa], by rw [c1_pa], by rw [c1_rm], by rw [c1_rm], by rw [c1_rm],
   by rw [c1_rm], by simp [c1_rm]⟩

/-! ### C2 -/

/-- C2: for every input triple the win rate equals the base 50 plus 5
per momentum/convergence signal occurrence plus the strength bonus
(10 for strong, 5 for moderate), capped at 90; it never drops below the
base 50 and always lies in `[0, 90]`. -/
theorem c2_win_rate_bounds (data : StockData) (technical : TechnicalAnalysis)
    (price : PriceAnalysis) :
    (calculate_risk_metrics data technical price).win_rate =
      min (50 + 5 * technical.signals.countP is_win_signal +
        (if technical.strength = "strong" then 10
         else if technical.strength = "moderate" then 5 else 0)) 90 ∧
    50 ≤ (calculate_risk_metrics data technical price).win_rate ∧
    (calculate_risk_metrics data technical price).win_rate ≤ 90 := by
  rw [win_rate_eq, foldl_winStep_eq]
  refine ⟨?_, ?_, ?_⟩ <;> split_ifs <;> omega

/-! ### C3 -/

/-- C3: the recommendation is `Hold` whenever the bullish vote count
(tags containing `buy` or `bullish`, plus the synthetic uptrend vote)
equals the bearish vote count (tags containing `sell` or `bearish`, plus
the synthetic downtrend vote), for any signal set and any trend. -/
theorem c3_hold_on_tie (technical : TechnicalAnalysis) (price : PriceAnalysis)
    (signals : List String)
    (h : bullish_votes price signals = bearish_votes price signals) :
    generate_recommendation technical price signals = "Hold" := by
  unfold generate_recommendation
  simp [h]

theorem c3_hold_on_tie_witness :
    generate_recommendation { trend := "neutral", strength := "weak", signals := [] }
      { trend := "sideways", volatility := "low", support := none, resistance := none }
      [] = "Hold" :=
  c3_hold_on_tie _ _ _ rfl

/-! ### C8 -/

/-- C8: the risk-percentage field of the risk metrics is always one of
2, 3 and 5 (the stop-loss percentage in use, expressed as a rounded
percentage). -/
theorem c8_risk_percentage (data : StockData) (technical : TechnicalAnalysis)
    (price : PriceAnalysis) :
    (calculate_risk_metrics data technical price).risk_percentage = 2 ∨
    (calculate_risk_metrics data technical price).risk_percentage = 3 ∨
    (calculate_risk_metrics data technical price).risk_percentage = 5 := by
  rw [risk_percentage_eq]
  split_ifs <;> norm_num [round2, round_half_even, Int.fract]

/-- When the reported strength is not `strong`, the recommendation can
only be `Buy`, `Sell` or `Hold`. -/
theorem rec_not_strong (technical : TechnicalAnalysis) (price : PriceAnalysis)
    (signals : List String) (hs : technical.strength ≠ "strong") :
    generate_recommendation technical price signals ≠ "Strong Buy" ∧
    generate_recommendation technical price signals ≠ "Strong Sell" := by
  unfold generate_recommendation
  constructor <;> intro h <;>
    by_cases h1 : bearish_votes price signals < bullish_votes price signals <;>
    by_cases h2 : bullish_votes price signals < bearish_votes price signals <;>
    simp [h1, h2, hs] at h

/-! ### C9 -/

/-- C9: the technical analysis always reports strength `weak` (the field
is initialised to `weak` and never reassigned); consequently the
pipeline's recommendation is never `Strong Buy` or `Strong Sell`, and the
win rate never receives the strength bonus: it is exactly
`min (50 + 5·count) 90`. -/
theorem c9_strength_weak (data : StockData) :
    (analyze_technical_indicators data).strength = "weak" ∧
    generate_recommendation (analyze_technical_indicators data) (analyze_price_action data)
        (generate_signals (analyze_technical_indicators data) (analyze_price_action data))
      ≠ "Strong Buy" ∧
    generate_recommendation (analyze_technical_indicators data) (analyze_price_action data)
        (generate_signals (analyze_technical_indicators data) (analyze_price_action data))
      ≠ "Strong Sell" ∧
    (calculate_risk_metrics data (analyze_technical_indicators data)
        (analyze_price_action data)).win_rate =
      min (50 + 5 * (analyze_technical_indicators data).signals.countP is_win_signal) 90 := by
  have hw : (analyze_technical_indicators data).strength = "weak" := rfl
  have hns : (analyze_technical_indicators data).strength ≠ "strong" := by
    rw [hw]; decide
  obtain ⟨h1, h2⟩ := rec_not_strong (analyze_technical_indicators data)
    (analyze_price_action data)
    (generate_signals (analyze_technical_indicators data) (analyze_price_action data)) hns
  refine ⟨hw, h1, h2, ?_⟩
  rw [win_rate_eq, hw, foldl_winStep_eq]
  simp

/-! ### C10 -/

/-- C10: whenever the MACD line and signal values are both present and
exactly equal, the technical signals contain `bearish_macd` and not
`bullish_macd`: equality is classified as bearish, not neutral. -/
theorem c10_equal_macd_is_bearish (data : StockData) (m s : ℚ)
    (hmacd : data.macd = some { macd := some m, signal := some s }) (heq : m = s) :
    "bearish_macd" ∈ (analyze_technical_indicators data).signals ∧
    "bullish_macd" ∉ (analyze_technical_indicators data).signals := by
  unfold analyze_technical_indicators
  rw [hmacd, heq]
  simp only [lt_irrefl, gt_iff_lt, if_false]
  rcases data.rsi with _ | r
  · simp
  · by_cases h70 : r > 70
    · simp [h70]
    · by_cases h30 : r < 30 <;> simp [h70, h30]

theorem c10_equal_macd_is_bearish_witness :
    "bearish_macd" ∈ (analyze_technical_indicators
      { price := none, change := none, volume := none, rsi := none,
        w52high := none, w52low := none,
        macd := some { macd := some 1, signal := some 1 } }).signals ∧
    "bullish_macd" ∉ (analyze_technical_indicators
      { price := none, change := none, volume := none, rsi := none,
        w52high := none, w52low := none,
        macd := some { macd := some 1, signal := some 1 } }).signals :=
  c10_equal_macd_is_bearish _ 1 1 rfl rfl

/-! ### Helper lemmas for the RSI oscillator -/

theorem price_diffs_length : ∀ l : List ℚ, (price_diffs l).length = l.length - 1
  | [] => rfl
  | [_] => rfl
  | a :: b :: rest => by
    have ih := price_diffs_length (b :: rest)
    simp only [price_diffs, List.length_cons] at ih ⊢
    omega

/-- The Wilder smoothing step keeps nonnegative averages nonnegative. -/
theorem wilder_foldl_nonneg (period : ℕ) (hp : 1 ≤ period) :
    ∀ (l : List ℚ) (init : ℚ), 0 ≤ init → (∀ v ∈ l, 0 ≤ v) →
      0 ≤ List.foldl (fun avg v => (avg * ((period : ℚ) - 1) + v) / (period : ℚ)) init l := by
  intro l
  induction l with
  | nil => intro init h _; simpa using h
  | cons x xs ih =>
    intro init hinit hmem
    rw [List.foldl_cons]
    refine ih _ ?_ (fun v hv => hmem v (List.mem_cons_of_mem _ hv))
    have hpq : (1 : ℚ) ≤ (period : ℚ) := by exact_mod_cast hp
    have hx : 0 ≤ x := hmem x (List.mem_cons_self _ _)
    apply div_nonneg
    · have : 0 ≤ init * ((period : ℚ) - 1) := mul_nonneg hinit (by linarith)
      linarith
    · linarith

/-- `calculate_average` of a nonnegative list is nonnegative. -/
theorem calculate_average_nonneg (period : ℕ) (hp : 1 ≤ period) (values : List ℚ)
    (h : ∀ v ∈ values, 0 ≤ v) : 0 ≤ calculate_average period values := by
  unfold calculate_average
  split_ifs with hlen
  · exact le_refl 0
  · refine wilder_foldl_nonneg period hp _ _ ?_ ?_
    · apply div_nonneg
      · exact List.sum_nonneg (fun v hv => h v (List.take_subset _ _ hv))
      · positivity
    · exact fun v hv => h v (List.drop_subset _ _ hv)

/-- Elements of the gains series are nonnegative. -/
theorem gains_nonneg (changes : List ℚ) :
    ∀ v ∈ changes.map (fun c => if c > 0 then c else 0), 0 ≤ v := by
  intro v hv
  rcases List.mem_map.mp hv with ⟨c, _, rfl⟩
  split_ifs with hc <;> [linarith; exact le_refl 0]

/-- Elements of the losses series are nonnegative. -/
theorem losses_nonneg (changes : List ℚ) :
    ∀ v ∈ changes.map (fun c => if c < 0 then -c else 0), 0 ≤ v := by
  intro v hv
  rcases List.mem_map.mp hv with ⟨c, _, rfl⟩
  split_ifs with hc <;> [linarith; exact le_refl 0]

/-! ### C4 -/

/-- C4: on every price list of length at least `period + 1` (with a
positive period), the momentum oscillator returns exactly 100 when the
Wilder-smoothed average loss is zero and
`100 - 100/(1 + avg_gain/avg_loss)` otherwise, and the returned score
always lies in `[0, 100]`. -/
theorem c4_rsi_score (period : ℕ) (l : List ℚ) (hp : 1 ≤ period)
    (hl : period + 1 ≤ l.length) :
    (rsi_calculate period (some l) =
      if calculate_average period ((price_diffs l).map (fun c => if c < 0 then -c else 0)) = 0
      then some 100
      else some (100 - 100 / (1 +
        calculate_average period ((price_diffs l).map (fun c => if c > 0 then c else 0)) /
        calculate_average period ((price_diffs l).map (fun c => if c < 0 then -c else 0))))) ∧
    ∀ r, rsi_calculate period (some l) = some r → 0 ≤ r ∧ r ≤ 100 := by
  have hne : l.isEmpty = false := by
    cases l with
    | nil => simp at hl
    | cons a t => rfl
  have hlen : ¬ l.length < period := by omega
  have hchanges : ¬ (price_diffs l).length < period := by
    rw [price_diffs_length]; omega
  have heq : rsi_calculate period (some l) =
      if calculate_average period ((price_diffs l).map (fun c => if c < 0 then -c else 0)) = 0
      then some 100
      else some (100 - 100 / (1 +
        calculate_average period ((price_diffs l).map (fun c => if c > 0 then c else 0)) /
        calculate_average period ((price_diffs l).map (fun c => if c < 0 then -c else 0)))) := by
    simp only [rsi_calculate, hne, Bool.false_eq_true, if_false, if_neg hlen,
      if_neg hchanges]
  refine ⟨heq, ?_⟩
  intro r hr
  rw [heq] at hr
  set al := calculate_average period ((price_diffs l).map (fun c => if c < 0 then -c else 0))
    with hal
  set ag := calculate_average period ((price_diffs l).map (fun c => if c > 0 then c else 0))
    with hag
  have hal0 : 0 ≤ al := calculate_average_nonneg period hp _ (losses_nonneg _)
  have hag0 : 0 ≤ ag := calculate_average_nonneg period hp _ (gains_nonneg _)
  by_cases hz : al = 0
  · rw [if_pos hz] at hr
    have : r = 100 := (Option.some.inj hr).symm
    constructor <;> norm_num [this]
  · rw [if_neg hz] at hr
    have hrval : r = 100 - 100 / (1 + ag / al) := (Option.some.inj hr).symm
    have halpos : 0 < al := lt_of_le_of_ne hal0 (Ne.symm hz)
    have hrs : 0 ≤ ag / al := div_nonneg hag0 hal0
    have hden : (1 : ℚ) ≤ 1 + ag / al := by linarith
    have hle : 100 / (1 + ag / al) ≤ 100 := div_le_self (by norm_num) hden
    have hpos : 0 < 100 / (1 + ag / al) := div_pos (by norm_num) (by linarith)
    constructor <;> rw [hrval] <;> linarith

theorem c4_rsi_score_witness : rsi_calculate 2 (some [1, 2, 3, 4]) = some 100 :=
  ((c4_rsi_score 2 [1, 2, 3, 4] (by norm_num) (by norm_num)).1).trans
    (by norm_num [price_diffs, calculate_average])

/-! ### C5 -/

/-- C5: inputs shorter than the required window (for RSI fewer than
`period` samples after differencing, i.e. length below `period + 1`; for
MACD fewer than `slow + signal` samples) and non-sequence inputs make
each indicator return its unknown sentinel: `none` for RSI and the
all-`none` triple for MACD. -/
theorem c5_short_input_sentinel :
    (∀ period : ℕ, rsi_calculate period none = none) ∧
    (∀ (period : ℕ) (l : List ℚ), l.length < period + 1 →
      rsi_calculate period (some l) = none) ∧
    (∀ fast slow signalp : ℕ, macd_calculate fast slow signalp none = (none, none, none)) ∧
    (∀ (fast slow signalp : ℕ) (l : List ℚ), l.length < slow + signalp →
      macd_calculate fast slow signalp (some l) = (none, none, none)) := by
  refine ⟨fun _ => rfl, ?_, fun _ _ _ => rfl, ?_⟩
  · intro period l h
    cases l with
    | nil => rfl
    | cons a t =>
      rcases Nat.lt_or_ge (a :: t).length period with hlt | hge
      · simp only [rsi_calculate, List.isEmpty_cons, Bool.false_eq_true, if_false]
        rw [if_pos hlt]
      · have hd : (price_diffs (a :: t)).length < period := by
          rw [price_diffs_length]
          simp only [List.length_cons] at h hge ⊢
          omega
        simp only [rsi_calculate, List.isEmpty_cons, Bool.false_eq_true, if_false]
        rw [if_neg (Nat.not_lt.mpr hge), if_pos hd]
  · intro fast slow signalp l h
    simp [macd_calculate, h]

theorem c5_short_input_sentinel_witness :
    rsi_calculate 14 (some [1, 2]) = none ∧
    macd_calculate 12 26 9 (some [1]) = (none, none, none) :=
  ⟨c5_short_input_sentinel.2.1 14 [1, 2] (by norm_num),
   c5_short_input_sentinel.2.2.2 12 26 9 [1] (by norm_num)⟩

/-! ### C7 -/

/-- C7: the convergence oscillator always returns either all three of
line, signal and histogram as values or all three as the unknown
sentinel, never a partial triple. -/
theorem c7_macd_all_or_nothing (fast slow signalp : ℕ) (prices : Option (List ℚ)) :
    macd_calculate fast slow signalp prices = (none, none, none) ∨
    ∃ a b c : ℚ, macd_calculate fast slow signalp prices = (some a, some b, some c) := by
  rcases prices with _ | l
  · exact Or.inl rfl
  · simp only [macd_calculate]
    split_ifs with hlen
    · exact Or.inl rfl
    · rcases hf : calculate_ema_array fast l with _ | fe <;>
        rcases hs : calculate_ema_array slow l with _ | se <;>
        simp only [hf, hs]
      · exact Or.inl trivial
      · exact Or.inl trivial
      · exact Or.inl trivial
      · rcases hsig : calculate_ema_array signalp (List.zipWith (fun a b => a - b) fe se)
          with _ | sl <;> simp only [hsig]
        · exact Or.inl trivial
        · exact Or.inr ⟨_, _, _, rfl⟩

/-! ### C6 -/

/-- C6: for missing (`None`/non-sequence), length-mismatched or
shorter-than-2 inputs, the volume analyzer returns exactly the default
record `{average_volume: 0, volume_trend: neutral,
price_volume_correlation: 0, unusual_volume: false,
volume_signal: normal_volume}`. -/
theorem c6_volume_default :
    (∀ v, analyze_volume none v = get_empty_result) ∧
    (∀ p, analyze_volume p none = get_empty_result) ∧
    (∀ p v : List ℚ, p.length ≠ v.length →
      analyze_volume (some p) (some v) = get_empty_result) ∧
    (∀ p v : List ℚ, p.length < 2 →
      analyze_volume (some p) (some v) = get_empty_result) ∧
    get_empty_result =
      { average_volume := 0, volume_trend := "neutral", price_volume_correlation := 0,
        unusual_volume := false, volume_signal := "normal_volume" } := by
  refine ⟨?_, ?_, ?_, ?_, rfl⟩
  · intro v; cases v <;> rfl
  · intro p; cases p <;> rfl
  · intro p v h
    simp only [analyze_volume]
    rw [if_pos h]
  · intro p v h
    simp only [analyze_volume]
    split_ifs with h1 <;> rfl

theorem c6_volume_default_witness :
    analyze_volume (some [1, 2]) (some [3]) = get_empty_result ∧
    analyze_volume (some [5]) (some [6]) = get_empty_result :=
  ⟨c6_volume_default.2.2.1 [1, 2] [3] (by simp),
   c6_volume_default.2.2.2.1 [5] [6] (by simp)⟩
